import Mathlib

/-!
Verification development for the AST-merging analysis pipeline
(`src/python/latex_output.py`, `src/python/diff3_pair_analysis.py`,
`src/python/diff3_analysis.py`).

Shallow embedding conventions:
* Outcome states are the Python enum `.name` strings compared by the code
  (`Tests_passed`, `Merge_failed`, `Tests_failed`, `Tests_timedout`, ...),
  modelled as `String` exactly as the code compares them.
* Fallible code (a Python `raise`) is modelled with `Option`.
* External processes (diff3/diff invocations) are parameters of the model:
  their stdout/stderr streams are inputs, and the pipeline's observable
  behaviour (which texts get persisted at which paths) is the output.
-/

namespace ASTMergeAnalysis

/-! ## Outcome states (`repo.py` enum names, as used by `latex_output.py`) -/

def testsPassed : String := "Tests_passed"

def testsFailed : String := "Tests_failed"

def testsTimedout : String := "Tests_timedout"

def mergeFailed : String := "Merge_failed"

/-- The states that remain in the result table after `latex_output.py`
filters out `UNDESIRABLE_STATES` (`Git_checkout_failed`, `Not_tested`,
`Merge_timedout`): the valid domain of the reconciliation. -/
def validStates : List String := [testsPassed, mergeFailed, testsFailed, testsTimedout]

/-- Embedding of `merge_two_states` (latex_output.py, lines 409-424).
The Python raises `Exception("Invalid case")` when no rule applies;
that is `none` here.  `x in (a, b)` is `a = x ∨ b = x`. -/
def merge_two_states (merge_result1 merge_result2 : String) : Option String :=
  if merge_result1 = testsPassed ∨ merge_result2 = testsPassed then some testsPassed
  else if merge_result1 = mergeFailed ∨ merge_result2 = mergeFailed then some mergeFailed
  else if merge_result1 = testsFailed ∨ merge_result2 = testsFailed then some testsFailed
  else if merge_result1 = testsTimedout ∧ merge_result2 = testsTimedout then
    some testsTimedout
  else none

/-- Embedding of the oracle computation (latex_output.py, lines 426-433):
`result_df["Oracle tool"]` starts at `Tests_failed` and each tool's column is
folded in with `merge_two_states`.  The fold is monadic because
`merge_two_states` can fail. -/
def oracleFold (outcomes : List String) : Option String :=
  outcomes.foldlM merge_two_states testsFailed

/-! ## Cost-tradeoff scorer (latex_output.py, lines 546-552).

The Python computes, for each tool,
`score = 1 - (unhandled * 1 + incorrect * cost_factor) / (unhandled + incorrect + correct)`
over a swept range of cost factors.  Counts are naturals, the cost factor is
modelled as a rational. -/

def score (correct incorrect unhandled : ℕ) (cost_factor : ℚ) : ℚ :=
  1 - ((unhandled : ℚ) * 1 + (incorrect : ℚ) * cost_factor)
      / ((unhandled : ℚ) + (incorrect : ℚ) + (correct : ℚ))

/-! ## Conflict extraction (diff3_pair_analysis.py lines 89-91,
diff3_analysis.py lines 52-54).

The code runs `re.findall(r"CONFLICT \(.+\): Merge conflict in (.+)", out)`.
Since `.` does not match a newline, every match lies within one line and the
greedy trailing `(.+)` extends to the end of that line, so `findall` yields at
most one match per line, in line order.  The embedding splits the output on
newlines and runs the pattern on each line: the leftmost position where
`CONFLICT (` matches and where the greedy `.+` can backtrack to a later
`): Merge conflict in ` that leaves a nonempty capture. -/

def conflictPre : List Char := ("CONFLICT (").toList

def conflictMid : List Char := ("): Merge conflict in ").toList

/-- Greedy backtracking of the first `.+`: the largest index `i` in `m` such
that `): Merge conflict in ` occurs at `i`, the first `.+` is nonempty
(`1 ≤ i`) and the capture `.+` is nonempty (`i + 21 < m.length`). -/
def midIndex (m : List Char) : Option ℕ :=
  ((List.range (m.length + 1)).filter (fun i =>
    conflictMid.isPrefixOf (m.drop i) && decide (1 ≤ i)
      && decide (i + conflictMid.length < m.length))).getLast?

/-- Try to match the pattern starting exactly at the head of `t`; on success
return the capture (the reported conflicting path). -/
def matchAt (t : List Char) : Option (List Char) :=
  if conflictPre.isPrefixOf t then
    match midIndex (t.drop conflictPre.length) with
    | some i => some ((t.drop conflictPre.length).drop (i + conflictMid.length))
    | none => none
  else none

/-- Leftmost match in a line, as the regex engine scans start positions. -/
def firstMatch : List Char → Option (List Char)
  | [] => none
  | c :: cs =>
    match matchAt (c :: cs) with
    | some r => some r
    | none => firstMatch cs

/-- Split on newline characters, like Python `str.split("\n")`. -/
def splitLines : List Char → List (List Char)
  | [] => [[]]
  | c :: cs =>
    if c = '\n' then [] :: splitLines cs
    else
      match splitLines cs with
      | [] => [[c]]
      | l :: ls => (c :: l) :: ls

/-- Embedding of
`re.findall(r"CONFLICT \(.+\): Merge conflict in (.+)", result.stdout)`:
the captures of all matching lines, in order, without de-duplication. -/
def findallConflicts (s : String) : List String :=
  ((splitLines s.toList).filterMap firstMatch).map List.asString

/-! ## Three-way diff comparator and report writer
(diff3_pair_analysis.py lines 121-239, diff3_analysis.py lines 68-114). -/

/-- Python substring containment (`pat in s`). -/
def hasSub (pat : List Char) : List Char → Bool
  | [] => pat.isPrefixOf []
  | c :: cs => pat.isPrefixOf (c :: cs) || hasSub pat cs

/-- `error_message = "No such file or directory"` (diff3_pair_analysis.py
lines 146, 207; diff3_analysis.py line 93). -/
def missingFileSignal : String := "No such file or directory"

def containsSignal (stderrText : String) : Bool :=
  hasSub missingFileSignal.toList stderrText.toList

inductive DiffMode where
  | threeWay : DiffMode
  | twoWay : DiffMode
deriving DecidableEq, Repr

/-- A file-level diff result: the text that will be persisted and the mode
that produced it. -/
structure DiffRecord where
  text : String
  mode : DiffMode
deriving DecidableEq, Repr

/-- One conflicting file's diff step: run diff3 (its stdout/stderr are the
first two arguments); if the missing-file signal appears on stderr, fall back
to the plain two-way diff (third argument). -/
def processFile (d3out d3err d2out : String) : DiffRecord :=
  if containsSignal d3err then ⟨d2out, DiffMode.twoWay⟩
  else ⟨d3out, DiffMode.threeWay⟩

/-- Number of external diff invocations performed for one file by one tool's
branch of the loop body: diff3 always runs, plain diff only on fallback. -/
def diffCallsForFile (d3err : String) : ℕ :=
  if containsSignal d3err then 2 else 1

/-! ### Report writer paths -/

/-- `pre.isPrefixOf s` on the underlying characters. -/
def strStarts (s pre : String) : Bool := pre.toList.isPrefixOf s.toList

def strEnds (s suf : String) : Bool := suf.toList.reverse.isPrefixOf s.toList.reverse

/-- Embedding of POSIX `os.path.join(a, b)`: an absolute `b` discards `a`;
a separator is inserted unless `a` is empty or already ends with one. -/
def pyJoin (a b : String) : String :=
  if strStarts b ("/") then b
  else if a = "" then b
  else if strEnds a ("/") then a ++ b
  else a ++ ("/") ++ b

/-- `os.path.basename`: the part after the last `/`. -/
def basenameChars (p : List Char) : List Char :=
  p.foldl (fun acc c => if c = '/' then [] else acc ++ [c]) []

/-- The split position used by `os.path.splitext` on a basename: the last
dot that has some non-dot character before it (leading dots never start an
extension). -/
def extIndex (n : List Char) : Option ℕ :=
  ((List.range n.length).filter (fun i =>
    (n.drop i).headI = '.' && (n.take i).any (fun c => !(c = '.')))).getLast?

/-- `os.path.splitext(os.path.basename(file))[0]` (diff3_pair_analysis.py
line 160). -/
def pyStem (file : String) : String :=
  let b := basenameChars file.toList
  match extIndex b with
  | some i => (b.take i).asString
  | none => b.asString

/-- The deterministic report path (diff3_pair_analysis.py lines 163-168):
`os.path.join(repo_output_dir, str(results_index), merge_tool,
f"diff_{conflicting_file_base}.txt")`. -/
def diffFilename (outputRoot idxStr toolName file : String) : String :=
  pyJoin (pyJoin (pyJoin outputRoot idxStr) toolName)
    (("diff_") ++ pyStem file ++ (".txt"))

/-! ### The pair-analysis pipeline's persisted output -/

structure WriteEvent where
  path : String
  content : String
deriving DecidableEq, Repr

/-- The external diff results for one conflicting file: stdout/stderr of
diff3 and stdout of the fallback plain diff, for each of the two tools'
merge attempts. -/
structure FileDiffEnv where
  d3out1 : String
  d3err1 : String
  d2out1 : String
  d3out2 : String
  d3err2 : String
  d2out2 : String
deriving Repr

/-- The two write events produced by one iteration of the conflict-file loop
(first for `merge_tool1`, then for `merge_tool2`). -/
def fileWrites (outputRoot idxStr tool1 tool2 file : String) (e : FileDiffEnv) :
    List WriteEvent :=
  [⟨diffFilename outputRoot idxStr tool1 file, (processFile e.d3out1 e.d3err1 e.d2out1).text⟩,
   ⟨diffFilename outputRoot idxStr tool2 file, (processFile e.d3out2 e.d3err2 e.d2out2).text⟩]

/-- Observable persisted output of `diff3_pair_analysis`: if conflict
extraction finds nothing the function returns before any diffing; otherwise
each reported conflicting file produces one report per tool.  `env k` gives
the external diff results for the `k`-th reported file. -/
def diff3PairWrites (consoleOut : String) (env : ℕ → FileDiffEnv)
    (outputRoot idxStr tool1 tool2 : String) : List WriteEvent :=
  let conflicts := findallConflicts consoleOut
  if conflicts = [] then []
  else conflicts.enum.flatMap fun kf =>
    fileWrites outputRoot idxStr tool1 tool2 kf.2 (env kf.1)

/-- Number of external diff invocations performed by `diff3_pair_analysis`. -/
def diff3PairDiffCalls (consoleOut : String) (env : ℕ → FileDiffEnv) : ℕ :=
  let conflicts := findallConflicts consoleOut
  if conflicts = [] then 0
  else (conflicts.enum.map fun kf =>
    diffCallsForFile (env kf.1).d3err1 + diffCallsForFile (env kf.1).d3err2).sum

/-! ## Fingerprint consistency check (latex_output.py lines 66-121) -/

/-- One row of the result table, seen through the columns the check reads:
`row[tool]` (the outcome) and `row[tool + "_merge_fingerprint"]`. -/
structure Row where
  outcome : String → String
  fingerprint : String → String

/-- Does some row have identical fingerprints but different outcomes for the
two tools?  (`inconsistent_mask.sum() > 0`.) -/
def inconsistentPair (rows : List Row) (t1 t2 : String) : Bool :=
  rows.any fun r =>
    r.fingerprint t1 = r.fingerprint t2 && !(r.outcome t1 = r.outcome t2)

/-- Whether the loop body for the pair `(t1, t2)` passes without tripping the
assertion, mirroring the chain of `continue`s in the source. -/
def pairOk (rows : List Row) (t1 t2 : String) : Bool :=
  if t1 = "gitmerge_resolve" ∨ t2 = "gitmerge_resolve" then true
  else if t1 = "gitmerge_ort_adjacent" ∨ t2 = "gitmerge_ort_adjacent" then true
  else if t1 = "gitmerge_ort_imports" ∨ t2 = "gitmerge_ort_imports" then true
  else if t1 = "gitmerge_ort_imports_ignorespace" ∨ t2 = "gitmerge_ort_imports_ignorespace"
    then true
  else if t1 ≠ t2 then !(inconsistentPair rows t1 t2)
  else true

/-- Embedding of `check_fingerprint_consistency`: `true` iff no assertion
fires over all tool pairs. -/
def checkFingerprintConsistency (rows : List Row) (mergeTools : List String) : Bool :=
  mergeTools.all fun t1 => mergeTools.all fun t2 => pairOk rows t1 t2

/-- The tools the source actually excludes from the pairwise check. -/
def codeExcludedTools : List String :=
  ["gitmerge_resolve", "gitmerge_ort_adjacent", "gitmerge_ort_imports",
   "gitmerge_ort_imports_ignorespace"]

/-- Modelled from the spec: the spec describes the excluded pairs as exactly
"a documented set of tool pairs known to legitimately diverge despite
structural similarity (adjacency-based and import-reordering tool variants)";
those variants are `gitmerge_ort_adjacent`, `gitmerge_ort_imports` and
`gitmerge_ort_imports_ignorespace`. -/
def specExcludedTools : List String :=
  ["gitmerge_ort_adjacent", "gitmerge_ort_imports", "gitmerge_ort_imports_ignorespace"]

/-! ### Concrete scenarios used in counterexamples -/

/-- A console output reporting one conflicting file. -/
def cexConsole : String := "CONFLICT (content): Merge conflict in src/A.txt"

/-- A diff3 diagnostic other than the missing-file signal. -/
def cexDiag : String := "diff3: ./repos/base/proj/src/A.txt: Is a directory"

def cexEnv : ℕ → FileDiffEnv :=
  fun _ => ⟨"3out1", cexDiag, "2out1", "3out2", cexDiag, "2out2"⟩

def cexEnvOther : ℕ → FileDiffEnv :=
  fun _ => ⟨"3out1", "diff3: invalid option -q", "2out1",
            "3out2", "diff3: invalid option -q", "2out2"⟩

/-- A result-table row on which `gitmerge_ort` and `gitmerge_resolve` share a
fingerprint but record different outcomes. -/
def fpRow : Row :=
  ⟨fun t => if t = "gitmerge_ort" then "Tests_passed" else "Tests_failed",
   fun _ => "fp0"⟩

def fpTools : List String := ["gitmerge_ort", "gitmerge_resolve"]

/-! ## Reconciliation theorems -/

/-- Helper for the oracle fold: reconciling an accumulator from
`{Tests_passed, Merge_failed, Tests_failed}` with any valid state succeeds and
stays in that set. -/
theorem merge_two_states_step (a x : String)
    (ha : a ∈ [testsPassed, mergeFailed, testsFailed]) (hx : x ∈ validStates) :
    merge_two_states a x = some testsPassed ∨
      merge_two_states a x = some mergeFailed ∨
        merge_two_states a x = some testsFailed := by
  fin_cases ha <;> fin_cases hx <;> decide

theorem oracleFold_aux (outcomes : List String) :
    ∀ a : String, a ∈ [testsPassed, mergeFailed, testsFailed] →
      (∀ x ∈ outcomes, x ∈ validStates) →
      ∃ r, List.foldlM merge_two_states a outcomes = some r ∧
        r ∈ [testsPassed, mergeFailed, testsFailed] := by
  induction outcomes with
  | nil =>
    intro a ha _
    exact ⟨a, rfl, ha⟩
  | cons x xs ih =>
    intro a ha hval
    have hx : x ∈ validStates := hval x (List.mem_cons_self x xs)
    have hxs : ∀ y ∈ xs, y ∈ validStates := fun y hy => hval y (List.mem_cons_of_mem x hy)
    rcases merge_two_states_step a x ha hx with h | h | h <;>
      · rw [List.foldlM_cons, h]
        simpa using ih _ (by decide) hxs

/-- C1: `merge_two_states` follows the strict precedence order: tests passed
beats merge failed beats tests failed; both timed out gives timed out; any
other combination fails with the invalid-state error (`none`); and
reconciling `Tests_passed` with any valid state gives `Tests_passed`. -/
theorem merge_two_states_precedence (a b : String) :
    ((a = testsPassed ∨ b = testsPassed) → merge_two_states a b = some testsPassed)
  ∧ (a ≠ testsPassed → b ≠ testsPassed → (a = mergeFailed ∨ b = mergeFailed) →
      merge_two_states a b = some mergeFailed)
  ∧ (a ≠ testsPassed → b ≠ testsPassed → a ≠ mergeFailed → b ≠ mergeFailed →
      (a = testsFailed ∨ b = testsFailed) → merge_two_states a b = some testsFailed)
  ∧ (a = testsTimedout → b = testsTimedout → merge_two_states a b = some testsTimedout)
  ∧ (a ≠ testsPassed → b ≠ testsPassed → a ≠ mergeFailed → b ≠ mergeFailed →
      a ≠ testsFailed → b ≠ testsFailed → ¬(a = testsTimedout ∧ b = testsTimedout) →
      merge_two_states a b = none)
  ∧ (b ∈ validStates → merge_two_states testsPassed b = some testsPassed) := by
  refine ⟨?_, ?_, ?_, ?_, ?_, ?_⟩ <;> intros <;> simp_all [merge_two_states]
  all_goals decide

/-- Witness for C1 at concrete states. -/
theorem merge_two_states_precedence_witness :
    (testsFailed = testsPassed ∨ testsPassed = testsPassed)
  ∧ merge_two_states testsFailed testsPassed = some testsPassed :=
  ⟨Or.inr rfl, (merge_two_states_precedence testsFailed testsPassed).1 (Or.inr rfl)⟩

/-- C2: over the valid domain, `merge_two_states` is associative (as a fold
step on `Option`), so the left-to-right fold over a scenario's per-tool
outcomes does not depend on fold order. -/
theorem merge_two_states_assoc (a b c : String)
    (ha : a ∈ validStates) (hb : b ∈ validStates) (hc : c ∈ validStates) :
    (merge_two_states a b).bind (fun x => merge_two_states x c)
      = (merge_two_states b c).bind (fun x => merge_two_states a x) := by
  fin_cases ha <;> fin_cases hb <;> fin_cases hc <;> decide

/-- Witness for C2 at a concrete state triple. -/
theorem merge_two_states_assoc_witness :
    mergeFailed ∈ validStates ∧ testsTimedout ∈ validStates ∧ testsFailed ∈ validStates
  ∧ (merge_two_states mergeFailed testsTimedout).bind (fun x => merge_two_states x testsFailed)
      = (merge_two_states testsTimedout testsFailed).bind
          (fun x => merge_two_states mergeFailed x) :=
  ⟨by decide, by decide, by decide,
    merge_two_states_assoc mergeFailed testsTimedout testsFailed
      (by decide) (by decide) (by decide)⟩

/-- C10: the oracle fold is seeded with `Tests_failed` (not with the first
tool's outcome), so over valid per-tool outcomes it never yields
`Tests_timedout`; in particular a scenario in which every tool timed out
receives oracle outcome `Tests_failed`. -/
theorem oracleFold_never_timedout :
    (∀ outcomes : List String, (∀ x ∈ outcomes, x ∈ validStates) →
      ∃ r, oracleFold outcomes = some r ∧ r ≠ testsTimedout)
  ∧ (∀ n : ℕ, oracleFold (List.replicate n testsTimedout) = some testsFailed) := by
  constructor
  · intro outcomes hval
    obtain ⟨r, hr, hmem⟩ := oracleFold_aux outcomes testsFailed (by decide) hval
    refine ⟨r, hr, ?_⟩
    fin_cases hmem <;> decide
  · intro n
    induction n with
    | zero => decide
    | succ m ih =>
      have hstep : merge_two_states testsFailed testsTimedout = some testsFailed := by decide
      simpa [oracleFold, List.replicate_succ, List.foldlM_cons, hstep] using ih

/-- Witness for C10 on a concrete all-timed-out scenario. -/
theorem oracleFold_never_timedout_witness :
    (∀ x ∈ [testsTimedout, testsTimedout], x ∈ validStates)
  ∧ ∃ r, oracleFold [testsTimedout, testsTimedout] = some r ∧ r ≠ testsTimedout :=
  ⟨by decide, oracleFold_never_timedout.1 [testsTimedout, testsTimedout] (by decide)⟩

/-! ## Cost scorer theorems -/

/-- C7: with at least one incorrect merge the effort-reduction score is
monotonically non-increasing in the cost factor, and with no incorrect merges
it is independent of the cost factor. -/
theorem score_antitone_in_cost_factor :
    (∀ (c i u : ℕ) (k₁ k₂ : ℚ), 0 < i → 0 < c + i + u → k₁ ≤ k₂ →
      score c i u k₂ ≤ score c i u k₁)
  ∧ (∀ (c u : ℕ) (k₁ k₂ : ℚ), score c 0 u k₁ = score c 0 u k₂) := by
  constructor
  · intro c i u k₁ k₂ hi _ hk
    have hi' : (0 : ℚ) < (i : ℚ) := by exact_mod_cast hi
    have hu : (0 : ℚ) ≤ (u : ℚ) := by positivity
    have hc0 : (0 : ℚ) ≤ (c : ℚ) := by positivity
    have hT : (0 : ℚ) < (u : ℚ) + (i : ℚ) + (c : ℚ) := by linarith
    have hnum : (u : ℚ) * 1 + (i : ℚ) * k₁ ≤ (u : ℚ) * 1 + (i : ℚ) * k₂ := by nlinarith
    have hdiv := (div_le_div_iff_of_pos_right hT).mpr hnum
    simp only [score]
    linarith
  · intro c u k₁ k₂
    simp [score]

/-- Witness for C7 at concrete counts and cost factors. -/
theorem score_antitone_in_cost_factor_witness :
    0 < 1 ∧ 0 < 1 + 1 + 1 ∧ (1 : ℚ) ≤ 2 ∧ score 1 1 1 2 ≤ score 1 1 1 1 :=
  ⟨by norm_num, by norm_num, by norm_num,
    score_antitone_in_cost_factor.1 1 1 1 1 2 (by norm_num) (by norm_num) (by norm_num)⟩

/-! ## Conflict extraction theorems -/

theorem splitLines_ne_nil : ∀ l : List Char, splitLines l ≠ []
  | [] => by simp [splitLines]
  | c :: cs => by
    unfold splitLines
    split_ifs
    · simp
    · rcases h : splitLines cs with _ | ⟨l, ls⟩ <;> simp

theorem splitLines_append (v : List Char) :
    ∀ u : List Char, splitLines (u ++ '\n' :: v) = splitLines u ++ splitLines v := by
  intro u
  induction u with
  | nil =>
    rw [List.nil_append]
    simp only [splitLines]
    simp
  | cons c cs ih =>
    rw [List.cons_append]
    simp only [splitLines]
    rw [ih]
    by_cases hc : c = '\n'
    · rw [if_pos hc, if_pos hc]
      rfl
    · rw [if_neg hc, if_neg hc]
      rcases h : splitLines cs with _ | ⟨l, ls⟩
      · exact absurd h (splitLines_ne_nil cs)
      · rfl

/-- C5: conflict extraction returns the capture of each matching
`CONFLICT (<kind>): Merge conflict in <path>` line in order of appearance
(extraction distributes over concatenation of console outputs, preserving
order); on the spec's two-line input it returns `["src/A.txt", "src/B.txt"]`
in that order, and a path reported twice is returned twice (no
de-duplication). -/
theorem findallConflicts_in_order_no_dedup :
    (∀ u v : String,
      findallConflicts (u ++ ("\n") ++ v) = findallConflicts u ++ findallConflicts v)
  ∧ findallConflicts
        ("CONFLICT (content): Merge conflict in src/A.txt\nCONFLICT (add/add): Merge conflict in src/B.txt")
      = ["src/A.txt", "src/B.txt"]
  ∧ findallConflicts
        ("CONFLICT (content): Merge conflict in src/A.txt\nAuto-merging src/B.txt\nCONFLICT (rename/delete): Merge conflict in src/A.txt")
      = ["src/A.txt", "src/A.txt"] := by
  refine ⟨?_, by decide, by decide⟩
  intro u v
  unfold findallConflicts
  have h : (u ++ ("\n") ++ v).toList = u.toList ++ '\n' :: v.toList := by
    show (u.data ++ ("\n").data) ++ v.data = u.data ++ '\n' :: v.data
    rw [List.append_assoc]
    rfl
  rw [h, splitLines_append, List.filterMap_append, List.map_append]

/-- C6: when no line of the console output matches the conflict pattern,
extraction returns the empty sequence and `diff3_pair_analysis` returns
before any diffing: zero diff invocations, zero report writes. -/
theorem no_conflicts_no_work (out : String) (env : ℕ → FileDiffEnv)
    (outputRoot idxStr tool1 tool2 : String)
    (h : ∀ l ∈ splitLines out.toList, firstMatch l = none) :
    findallConflicts out = []
  ∧ diff3PairWrites out env outputRoot idxStr tool1 tool2 = []
  ∧ diff3PairDiffCalls out env = 0 := by
  have hempty : findallConflicts out = [] := by
    unfold findallConflicts
    rw [List.filterMap_eq_nil_iff.mpr h]
    rfl
  exact ⟨hempty, by simp [diff3PairWrites, hempty], by simp [diff3PairDiffCalls, hempty]⟩

/-- Witness for C6 on a concrete conflict-free console output. -/
theorem no_conflicts_no_work_witness :
    (∀ l ∈ splitLines ("Auto-merging src/A.txt\nMerge made by recursive.").toList,
      firstMatch l = none)
  ∧ findallConflicts ("Auto-merging src/A.txt\nMerge made by recursive.") = []
  ∧ diff3PairWrites ("Auto-merging src/A.txt\nMerge made by recursive.")
      (fun _ => ⟨"", "", "", "", "", ""⟩) ("out") ("0") ("t1") ("t2") = []
  ∧ diff3PairDiffCalls ("Auto-merging src/A.txt\nMerge made by recursive.")
      (fun _ => ⟨"", "", "", "", "", ""⟩) = 0 :=
  ⟨by decide,
    no_conflicts_no_work ("Auto-merging src/A.txt\nMerge made by recursive.")
      (fun _ => ⟨"", "", "", "", "", ""⟩) ("out") ("0") ("t1") ("t2") (by decide)⟩

/-! ## Diff comparator theorems -/

/-- C3: when the three-way diff's diagnostic stream carries the missing-file
signal, the comparator falls back to the plain two-way diff of tool output
vs. human merge, and the resulting record carries the two-way mode. -/
theorem fallback_two_way (d3out d3err d2out : String)
    (h : containsSignal d3err = true) :
    processFile d3out d3err d2out = ⟨d2out, DiffMode.twoWay⟩ := by
  simp [processFile, h]

/-- Witness for C3 with a concrete diff3 missing-file diagnostic. -/
theorem fallback_two_way_witness :
    containsSignal
        ("diff3: ./repos/base/proj/src/A.java: No such file or directory") = true
  ∧ processFile ("")
        ("diff3: ./repos/base/proj/src/A.java: No such file or directory")
        ("1c1\n< tool\n---\n> human")
      = ⟨"1c1\n< tool\n---\n> human", DiffMode.twoWay⟩ :=
  ⟨by decide,
    fallback_two_way ("")
      ("diff3: ./repos/base/proj/src/A.java: No such file or directory")
      ("1c1\n< tool\n---\n> human") (by decide)⟩

/-- C4 counterexample: a run whose diff3 stderr carries a diagnostic other
than the missing-file signal persists only the three-way stdout; the
diagnostic appears in no persisted path or content, and the persisted output
is byte-identical to a run with a completely different non-signal diagnostic.
The diagnostic is silently discarded, not surfaced. -/
theorem diag_swallowed_cex :
    containsSignal cexDiag = false
  ∧ diff3PairWrites cexConsole cexEnv ("out") ("0") ("ort") ("spork") ≠ []
  ∧ (diff3PairWrites cexConsole cexEnv ("out") ("0") ("ort") ("spork")).all
      (fun w => !(hasSub cexDiag.toList (w.path ++ w.content).toList)) = true
  ∧ diff3PairWrites cexConsole cexEnv ("out") ("0") ("ort") ("spork")
      = diff3PairWrites cexConsole cexEnvOther ("out") ("0") ("ort") ("spork") := by
  decide

/-- C4 amended: a diagnostic other than the missing-file signal is silently
discarded: the record keeps the three-way stdout in three-way mode, and the
result does not depend on the diagnostic's text at all. -/
theorem diag_swallowed (d3out e1 e2 d2out : String)
    (h1 : containsSignal e1 = false) (h2 : containsSignal e2 = false) :
    processFile d3out e1 d2out = ⟨d3out, DiffMode.threeWay⟩
  ∧ processFile d3out e1 d2out = processFile d3out e2 d2out := by
  simp [processFile, h1, h2]

/-- Witness for the amended C4 at concrete diagnostics. -/
theorem diag_swallowed_witness :
    containsSignal ("diff3: invalid option -q") = false
  ∧ containsSignal ("") = false
  ∧ (processFile ("3out") ("diff3: invalid option -q") ("2out")
        = ⟨"3out", DiffMode.threeWay⟩
     ∧ processFile ("3out") ("diff3: invalid option -q") ("2out")
        = processFile ("3out") ("") ("2out")) :=
  ⟨by decide, by decide,
    diag_swallowed ("3out") ("diff3: invalid option -q") ("") ("2out")
      (by decide) (by decide)⟩

/-! ## Report-writer path theorems -/

theorem string_append_ne_empty (a b : String) (hb : b ≠ "") : a ++ b ≠ "" := by
  intro hc
  apply hb
  have hdata : a.data ++ b.data = [] := congrArg String.data hc
  exact String.ext (List.append_eq_nil.mp hdata).2

theorem strEnds_append (a b : String) (hb : b ≠ "") (h : strEnds b ("/") = false) :
    strEnds (a ++ b) ("/") = false := by
  unfold strEnds at h ⊢
  have hab : (a ++ b).toList = a.toList ++ b.toList := rfl
  rw [hab, List.reverse_append]
  have hbl : b.toList ≠ [] := by
    intro hc
    exact hb (String.ext hc)
  have hrev : ("/").toList.reverse = ['/'] := rfl
  rw [hrev] at h ⊢
  cases hr : b.toList.reverse with
  | nil => exact absurd (by simpa using hr) hbl
  | cons c cs =>
    rw [hr] at h
    rw [List.cons_append]
    simp only [List.isPrefixOf, Bool.and_true] at h ⊢
    exact h

theorem strStarts_diff_lit (x y : String) :
    strStarts (("diff_") ++ x ++ y) ("/") = false := rfl

/-- C9: the report writer's path is the deterministic
`<output_root>/<scenario_id>/<tool_name>/diff_<file_basename>.txt`; every
write of `diff3_pair_analysis` uses it; and for scenario id `42`, tool
`gitmerge_ort`, file `src/A.java` the path is
`<output_root>/42/gitmerge_ort/diff_A.txt`. -/
theorem report_path_deterministic
    (outputRoot idxStr tool1 tool2 file out : String) (env : ℕ → FileDiffEnv)
    (hroot : outputRoot ≠ "") (hroote : strEnds outputRoot ("/") = false)
    (hidx : idxStr ≠ "") (hidxs : strStarts idxStr ("/") = false)
    (hidxe : strEnds idxStr ("/") = false)
    (htool : tool1 ≠ "") (htools : strStarts tool1 ("/") = false)
    (htoole : strEnds tool1 ("/") = false) :
    diffFilename outputRoot idxStr tool1 file
      = outputRoot ++ ("/") ++ idxStr ++ ("/") ++ tool1 ++ ("/") ++ ("diff_")
          ++ pyStem file ++ (".txt")
  ∧ (∀ w ∈ diff3PairWrites out env outputRoot idxStr tool1 tool2,
      ∃ f ∈ findallConflicts out,
        w.path = diffFilename outputRoot idxStr tool1 f
          ∨ w.path = diffFilename outputRoot idxStr tool2 f)
  ∧ diffFilename outputRoot ("42") ("gitmerge_ort") ("src/A.java")
      = outputRoot ++ ("/42/gitmerge_ort/diff_A.txt") := by
  refine ⟨?_, ?_, ?_⟩
  · have j1 : pyJoin outputRoot idxStr = outputRoot ++ ("/") ++ idxStr := by
      simp [pyJoin, hidxs, hroot, hroote]
    have hj1ne : outputRoot ++ ("/") ++ idxStr ≠ "" :=
      string_append_ne_empty _ _ hidx
    have hj1e : strEnds (outputRoot ++ ("/") ++ idxStr) ("/") = false :=
      strEnds_append _ _ hidx hidxe
    have j2 : pyJoin (outputRoot ++ ("/") ++ idxStr) tool1
        = outputRoot ++ ("/") ++ idxStr ++ ("/") ++ tool1 := by
      simp [pyJoin, htools, hj1ne, hj1e]
    have hj2ne : outputRoot ++ ("/") ++ idxStr ++ ("/") ++ tool1 ≠ "" :=
      string_append_ne_empty _ _ htool
    have hj2e : strEnds (outputRoot ++ ("/") ++ idxStr ++ ("/") ++ tool1) ("/") = false :=
      strEnds_append _ _ htool htoole
    have j3 : pyJoin (outputRoot ++ ("/") ++ idxStr ++ ("/") ++ tool1)
          (("diff_") ++ pyStem file ++ (".txt"))
        = outputRoot ++ ("/") ++ idxStr ++ ("/") ++ tool1 ++ ("/")
            ++ (("diff_") ++ pyStem file ++ (".txt")) := by
      simp [pyJoin, hj2ne, hj2e, strStarts_diff_lit]
    unfold diffFilename
    rw [j1, j2, j3]
    simp only [String.append_assoc]
  · intro w hw
    unfold diff3PairWrites at hw
    by_cases hc : findallConflicts out = []
    · simp [hc] at hw
    · simp only [hc, if_neg, List.mem_flatMap, ite_false] at hw
      obtain ⟨kf, hkf, hwf⟩ := hw
      refine ⟨kf.2, ?_, ?_⟩
      · have hmap := List.enum_map_snd (findallConflicts out)
        exact hmap ▸ List.mem_map_of_mem Prod.snd hkf
      · simp only [fileWrites, List.mem_cons, List.not_mem_nil, or_false] at hwf
        rcases hwf with h | h
        · exact Or.inl (by rw [h])
        · exact Or.inr (by rw [h])
  · have h42s : strStarts ("42") ("/") = false := by decide
    have hos : strStarts ("gitmerge_ort") ("/") = false := by decide
    have k1 : pyJoin outputRoot ("42") = outputRoot ++ ("/") ++ ("42") := by
      simp [pyJoin, h42s, hroot, hroote]
    have hk1ne : outputRoot ++ ("/") ++ ("42") ≠ "" :=
      string_append_ne_empty _ _ (by decide)
    have hk1e : strEnds (outputRoot ++ ("/") ++ ("42")) ("/") = false :=
      strEnds_append _ _ (by decide) (by decide)
    have k2 : pyJoin (outputRoot ++ ("/") ++ ("42")) ("gitmerge_ort")
        = outputRoot ++ ("/") ++ ("42") ++ ("/") ++ ("gitmerge_ort") := by
      simp [pyJoin, hos, hk1ne, hk1e]
    have hk2ne : outputRoot ++ ("/") ++ ("42") ++ ("/") ++ ("gitmerge_ort") ≠ "" :=
      string_append_ne_empty _ _ (by decide)
    have hk2e : strEnds (outputRoot ++ ("/") ++ ("42") ++ ("/") ++ ("gitmerge_ort"))
        ("/") = false :=
      strEnds_append _ _ (by decide) (by decide)
    have hstem : pyStem ("src/A.java") = ("A") := by decide
    have hds : strStarts ("diff_A.txt") ("/") = false := by decide
    have k3 : pyJoin (outputRoot ++ ("/") ++ ("42") ++ ("/") ++ ("gitmerge_ort"))
          (("diff_") ++ ("A") ++ (".txt"))
        = outputRoot ++ ("/") ++ ("42") ++ ("/") ++ ("gitmerge_ort") ++ ("/")
            ++ (("diff_") ++ ("A") ++ (".txt")) := by
      simp [pyJoin, hds, hk2ne, hk2e]
    unfold diffFilename
    rw [hstem, k1, k2, k3]
    simp only [String.append_assoc]
    congr 1

/-- Witness for C9 at a concrete output root. -/
theorem report_path_deterministic_witness :
    ("results") ≠ "" ∧ strEnds ("results") ("/") = false
  ∧ diffFilename ("results") ("42") ("gitmerge_ort") ("src/A.java")
      = ("results") ++ ("/42/gitmerge_ort/diff_A.txt") :=
  ⟨by decide, by decide,
    (report_path_deterministic ("results") ("42") ("gitmerge_ort") ("spork")
      ("src/A.java") ("") (fun _ => ⟨"", "", "", "", "", ""⟩)
      (by decide) (by decide) (by decide) (by decide) (by decide)
      (by decide) (by decide) (by decide)).2.2⟩

/-! ## Fingerprint consistency theorems -/

/-- C8 counterexample: the code's exclusion set is larger than the spec's
"exactly the adjacency-based and import-reordering variants": pairs involving
`gitmerge_resolve` are also skipped.  Concretely, a table in which
`gitmerge_ort` and `gitmerge_resolve` share a fingerprint but record
different outcomes passes the check, although `gitmerge_resolve` is not
among the adjacency/import variants. -/
theorem fingerprint_resolve_excluded_cex :
    checkFingerprintConsistency [fpRow] fpTools = true
  ∧ inconsistentPair [fpRow] ("gitmerge_ort") ("gitmerge_resolve") = true
  ∧ ("gitmerge_resolve") ∈ fpTools
  ∧ ("gitmerge_resolve") ∉ specExcludedTools := by
  decide

/-- C8 amended: the check passes exactly when every pair of distinct tools
outside the code's exclusion set (`gitmerge_resolve` plus the adjacency-based
and import-reordering variants) has no row with equal fingerprints but
different outcomes; otherwise the assertion fires. -/
theorem fingerprint_check_iff (rows : List Row) (mergeTools : List String) :
    checkFingerprintConsistency rows mergeTools = true ↔
      ∀ t1 ∈ mergeTools, ∀ t2 ∈ mergeTools,
        t1 ∉ codeExcludedTools → t2 ∉ codeExcludedTools → t1 ≠ t2 →
          ∀ r ∈ rows, r.fingerprint t1 = r.fingerprint t2 →
            r.outcome t1 = r.outcome t2 := by
  unfold checkFingerprintConsistency
  simp only [List.all_eq_true]
  constructor
  · intro h t1 h1 t2 h2 hn1 hn2 hne r hr hfp
    have hp := h t1 h1 t2 h2
    simp only [codeExcludedTools, List.mem_cons, List.not_mem_nil, or_false,
      not_or] at hn1 hn2
    obtain ⟨hn1a, hn1b, hn1c, hn1d⟩ := hn1
    obtain ⟨hn2a, hn2b, hn2c, hn2d⟩ := hn2
    unfold pairOk at hp
    rw [if_neg (by tauto), if_neg (by tauto), if_neg (by tauto),
      if_neg (by tauto), if_pos hne] at hp
    rw [Bool.not_eq_true'] at hp
    unfold inconsistentPair at hp
    rw [List.any_eq_false] at hp
    have hr2 := hp r hr
    simpa [hfp] using hr2
  · intro h t1 h1 t2 h2
    unfold pairOk
    split_ifs with hc1 hc2 hc3 hc4 hc5
    · rfl
    · rfl
    · rfl
    · rfl
    · have hn1 : t1 ∉ codeExcludedTools := by
        intro hm
        simp only [codeExcludedTools, List.mem_cons, List.not_mem_nil,
          or_false] at hm
        rcases hm with rfl | rfl | rfl | rfl
        · exact hc1 (Or.inl rfl)
        · exact hc2 (Or.inl rfl)
        · exact hc3 (Or.inl rfl)
        · exact hc4 (Or.inl rfl)
      have hn2 : t2 ∉ codeExcludedTools := by
        intro hm
        simp only [codeExcludedTools, List.mem_cons, List.not_mem_nil,
          or_false] at hm
        rcases hm with rfl | rfl | rfl | rfl
        · exact hc1 (Or.inr rfl)
        · exact hc2 (Or.inr rfl)
        · exact hc3 (Or.inr rfl)
        · exact hc4 (Or.inr rfl)
      rw [Bool.not_eq_true']
      unfold inconsistentPair
      rw [List.any_eq_false]
      intro r hr
      by_cases hfp : r.fingerprint t1 = r.fingerprint t2
      · simp [hfp, h t1 h1 t2 h2 hn1 hn2 hc5 r hr hfp]
      · simp [hfp]
    · rfl

/-- Witness for the amended C8 on a concrete consistent table. -/
theorem fingerprint_check_iff_witness :
    checkFingerprintConsistency [] (["gitmerge_ort", "spork"]) = true :=
  (fingerprint_check_iff [] (["gitmerge_ort", "spork"])).mpr (by simp)

end ASTMergeAnalysis
